import Mathlib

/-!
Verification of the orbital-simulation repository: a shallow embedding of the
radiative thermal engine (`orbital-node/src/core/thermal.py`), the orbital
node's job-admission endpoint (`orbital-node/src/main.py`), the uplink
transmission proxy (`uplink-service/src/main.py`) and the ground-station
shuttle packaging (`ground-station/src/shuttle.py`).  Python floats are
modelled as rationals (every constant and operation in these modules is
rational); raised exceptions are modelled with `Except`; mutation of the
radiator state is modelled by explicit state passing.
-/

namespace OrbitalSim

/-- `STEFAN_BOLTZMANN_SIGMA = 5.67e-8` from `thermal.py`. -/
def STEFAN_BOLTZMANN_SIGMA : ℚ := 5.67e-8

/-- `DEEP_SPACE_TEMP_K = 3.0` from `thermal.py`. -/
def DEEP_SPACE_TEMP_K : ℚ := 3.0

/-- `ThermalConfig` from `thermal.py` (pydantic model; all fields floats). -/
structure ThermalConfig where
  mass_kg : ℚ
  specific_heat_j_kg_k : ℚ
  surface_area_m2 : ℚ
  max_temp_k : ℚ
  initial_temp_k : ℚ
  emissivity : ℚ

/-- The pydantic defaults of `ThermalConfig` in `thermal.py`. -/
def defaultConfig : ThermalConfig :=
  { mass_kg := 50.0, specific_heat_j_kg_k := 900.0, surface_area_m2 := 1.0,
    emissivity := 0.92, max_temp_k := 353.15, initial_temp_k := 293.15 }

/-- The documented data-model invariant on a thermal configuration: every
field is strictly positive and the emissivity lies in `(0, 1]`. -/
def ThermalConfig.Valid (c : ThermalConfig) : Prop :=
  0 < c.mass_kg ∧ 0 < c.specific_heat_j_kg_k ∧ 0 < c.surface_area_m2 ∧
    0 < c.emissivity ∧ c.emissivity ≤ 1 ∧ 0 < c.max_temp_k ∧ 0 < c.initial_temp_k

/-- `RadiatorSystem` state: the configuration plus the mutable
`current_temp_k`. -/
structure RadiatorSystem where
  config : ThermalConfig
  current_temp_k : ℚ

/-- `RadiatorSystem.__init__`: the temperature starts at
`config.initial_temp_k`. -/
def RadiatorSystem.init (c : ThermalConfig) : RadiatorSystem :=
  { config := c, current_temp_k := c.initial_temp_k }

/-- The `current_temp_c` property of `RadiatorSystem`. -/
def current_temp_c (s : RadiatorSystem) : ℚ :=
  s.current_temp_k - 273.15

/-- `RadiatorSystem.calculate_rejection_watts` from `thermal.py`. -/
def calculate_rejection_watts (s : RadiatorSystem) : ℚ :=
  s.config.emissivity * STEFAN_BOLTZMANN_SIGMA * s.config.surface_area_m2 *
    (s.current_temp_k ^ 4 - DEEP_SPACE_TEMP_K ^ 4)

/-- The dict returned by a successful `RadiatorSystem.tick`. -/
structure TickResult where
  temp_c : ℚ
  radiated_watts : ℚ
  net_power : ℚ

/-- The data carried by a raised `ThermalThrottlingException`: the measured
Celsius temperature and the configured limit in Celsius (the two values
interpolated into the exception message). -/
structure ThermalTrip where
  measured_temp_c : ℚ
  limit_c : ℚ

/-- `RadiatorSystem.tick` from `thermal.py`.  The updated state is returned in
both outcomes because the Python method mutates `self.current_temp_k` before
the safety check; a raised `ThermalThrottlingException` is the `error` case. -/
def tick (s : RadiatorSystem) (load_watts : ℚ) (dt_seconds : ℚ) :
    RadiatorSystem × Except ThermalTrip TickResult :=
  let radiated_watts := calculate_rejection_watts s
  let net_power := load_watts - radiated_watts
  let thermal_mass := s.config.mass_kg * s.config.specific_heat_j_kg_k
  let energy_joules := net_power * dt_seconds
  let temp_delta := energy_joules / thermal_mass
  let s2 : RadiatorSystem := { s with current_temp_k := s.current_temp_k + temp_delta }
  if s2.current_temp_k ≥ s.config.max_temp_k then
    (s2, Except.error { measured_temp_c := current_temp_c s2,
                        limit_c := s.config.max_temp_k - 273.15 })
  else
    (s2, Except.ok { temp_c := current_temp_c s2,
                     radiated_watts := radiated_watts, net_power := net_power })

/-- Whether a modelled Python call returned normally (`ok`) rather than
raising (`error`). -/
def succeeds {ε α : Type} (x : Except ε α) : Bool :=
  match x with
  | Except.ok _ => true
  | Except.error _ => false

/-- The two possible shapes of a `tick` outcome: a success dict built from the
committed state and the pre-state rejection, or a trip error built from the
committed state and the configured limit. -/
theorem tick_cases (s : RadiatorSystem) (load_watts dt_seconds : ℚ) :
    (tick s load_watts dt_seconds).2 =
        Except.ok { temp_c := current_temp_c (tick s load_watts dt_seconds).1,
                    radiated_watts := calculate_rejection_watts s,
                    net_power := load_watts - calculate_rejection_watts s } ∨
    (tick s load_watts dt_seconds).2 =
        Except.error { measured_temp_c := current_temp_c (tick s load_watts dt_seconds).1,
                       limit_c := s.config.max_temp_k - 273.15 } := by
  simp only [tick]
  split
  · exact Or.inr rfl
  · exact Or.inl rfl

/-- **C1.** For every thermal state and inputs, `tick` radiates
`calculate_rejection_watts` of the pre-state, forms
`net_power = load_watts - radiated_watts`, adds
`net_power * dt_seconds / (mass_kg * specific_heat)` to the temperature
(keeping the configuration unchanged), and on success returns exactly
`{temp_c, radiated_watts, net_power}` with `temp_c` the new temperature
minus 273.15. -/
theorem tick_functional_correctness (s : RadiatorSystem) (load_watts dt_seconds : ℚ)
    (_hv : s.config.Valid) :
    (tick s load_watts dt_seconds).1.current_temp_k =
      s.current_temp_k + (load_watts - calculate_rejection_watts s) * dt_seconds /
        (s.config.mass_kg * s.config.specific_heat_j_kg_k) ∧
    (tick s load_watts dt_seconds).1.config = s.config ∧
    ∀ r, (tick s load_watts dt_seconds).2 = Except.ok r →
      r.temp_c = (tick s load_watts dt_seconds).1.current_temp_k - 273.15 ∧
      r.radiated_watts = calculate_rejection_watts s ∧
      r.net_power = load_watts - calculate_rejection_watts s := by
  simp only [tick, current_temp_c]
  split
  · refine ⟨rfl, rfl, ?_⟩
    intro r hr
    exact absurd hr (by simp)
  · refine ⟨rfl, rfl, ?_⟩
    intro r hr
    obtain rfl := Except.ok.inj hr
    exact ⟨rfl, rfl, rfl⟩

/-- **C1 witness**: the theorem applied to the default radiator at one
concrete input. -/
theorem tick_functional_correctness_witness :
    (tick (RadiatorSystem.init defaultConfig) 50 1).1.current_temp_k =
      (RadiatorSystem.init defaultConfig).current_temp_k +
        (50 - calculate_rejection_watts (RadiatorSystem.init defaultConfig)) * 1 /
          ((RadiatorSystem.init defaultConfig).config.mass_kg *
            (RadiatorSystem.init defaultConfig).config.specific_heat_j_kg_k) :=
  (tick_functional_correctness (RadiatorSystem.init defaultConfig) 50 1
    (by norm_num [ThermalConfig.Valid, RadiatorSystem.init, defaultConfig])).1

/-- **C2.** `tick` fails exactly when the updated temperature has reached
`max_temp_k`; the updated temperature is committed whether or not the call
fails (no rollback), and the error carries the measured Celsius value
(updated temperature minus 273.15) together with the limit in Celsius, the
measured value being at least the limit. -/
theorem tick_trip_semantics (s : RadiatorSystem) (load_watts dt_seconds : ℚ) :
    (succeeds (tick s load_watts dt_seconds).2 = false ↔
       s.config.max_temp_k ≤ (tick s load_watts dt_seconds).1.current_temp_k) ∧
    ((tick s load_watts dt_seconds).1.current_temp_k =
       s.current_temp_k + (load_watts - calculate_rejection_watts s) * dt_seconds /
         (s.config.mass_kg * s.config.specific_heat_j_kg_k)) ∧
    ∀ e, (tick s load_watts dt_seconds).2 = Except.error e →
      e.measured_temp_c = (tick s load_watts dt_seconds).1.current_temp_k - 273.15 ∧
      e.limit_c = s.config.max_temp_k - 273.15 ∧
      e.limit_c ≤ e.measured_temp_c := by
  simp only [tick, current_temp_c]
  split
  case isTrue h =>
    refine ⟨iff_of_true rfl h, rfl, ?_⟩
    intro e he
    obtain rfl := Except.error.inj he
    exact ⟨rfl, rfl, sub_le_sub_right h 273.15⟩
  case isFalse h =>
    refine ⟨iff_of_false (fun hf => Bool.noConfusion hf) h, rfl, ?_⟩
    intro e he
    exact absurd he (by simp)

/-- **C2 witness**: at 400 K under the default configuration an idle tick
still trips, and the theorem yields the committed-state/error facts there. -/
theorem tick_trip_semantics_witness :
    succeeds (tick { config := defaultConfig, current_temp_k := 400 } 50 1).2 = false :=
  (tick_trip_semantics { config := defaultConfig, current_temp_k := 400 } 50 1).1.mpr
    (by norm_num [tick, calculate_rejection_watts, defaultConfig,
      STEFAN_BOLTZMANN_SIGMA, DEEP_SPACE_TEMP_K])

/-- **C3.** `calculate_rejection_watts` is exactly the documented closed form
`emissivity * 5.67e-8 * surface_area * (T^4 - 3^4)` (a pure function of the
state), and at the reference point (area 1, emissivity 0.92, 293.15 K — the
default configuration) its value is within 1% of 385.24 W. -/
theorem rejection_watts_formula_and_reference :
    (∀ s : RadiatorSystem, calculate_rejection_watts s =
      s.config.emissivity * (5.67e-8 : ℚ) * s.config.surface_area_m2 *
        (s.current_temp_k ^ 4 - (3.0 : ℚ) ^ 4)) ∧
    |calculate_rejection_watts (RadiatorSystem.init defaultConfig) - 385.24| ≤
      (0.01 : ℚ) * 385.24 := by
  constructor
  · intro s
    rfl
  · norm_num [calculate_rejection_watts, RadiatorSystem.init, defaultConfig,
      STEFAN_BOLTZMANN_SIGMA, DEEP_SPACE_TEMP_K, abs_le]

/-- **C4.** For every thermal state satisfying the data-model invariant whose
temperature exceeds the 3 K deep-space background, a `tick` with zero load and
positive duration strictly decreases `current_temp_k`. -/
theorem tick_cooling_strict (s : RadiatorSystem) (dt_seconds : ℚ)
    (hv : s.config.Valid) (ht : DEEP_SPACE_TEMP_K < s.current_temp_k)
    (hdt : 0 < dt_seconds) :
    (tick s 0 dt_seconds).1.current_temp_k < s.current_temp_k := by
  obtain ⟨hm, hc, hA, he, _, _, _⟩ := hv
  have h30 : DEEP_SPACE_TEMP_K = (3 : ℚ) := by norm_num [DEEP_SPACE_TEMP_K]
  rw [h30] at ht
  have h4 : (3 : ℚ) ^ 4 < s.current_temp_k ^ 4 :=
    pow_lt_pow_left₀ ht (by norm_num) (by norm_num)
  have hrej : 0 < calculate_rejection_watts s := by
    have hσ : (0 : ℚ) < STEFAN_BOLTZMANN_SIGMA := by norm_num [STEFAN_BOLTZMANN_SIGMA]
    have hΔ : (0 : ℚ) < s.current_temp_k ^ 4 - DEEP_SPACE_TEMP_K ^ 4 := by
      rw [h30]
      linarith
    exact mul_pos (mul_pos (mul_pos he hσ) hA) hΔ
  have hdelta : (0 - calculate_rejection_watts s) * dt_seconds /
      (s.config.mass_kg * s.config.specific_heat_j_kg_k) < 0 :=
    div_neg_of_neg_of_pos
      (mul_neg_of_neg_of_pos (by linarith) hdt) (mul_pos hm hc)
  simp only [tick]
  split
  · exact add_lt_iff_neg_left.mpr hdelta
  · exact add_lt_iff_neg_left.mpr hdelta

/-- **C4 witness**: the default radiator at 293.15 K cools over a 60 s idle
tick (the scenario of the repository's own `test_system_cools_down`). -/
theorem tick_cooling_strict_witness :
    (tick (RadiatorSystem.init defaultConfig) 0 60).1.current_temp_k <
      (RadiatorSystem.init defaultConfig).current_temp_k :=
  tick_cooling_strict (RadiatorSystem.init defaultConfig) 60
    (by norm_num [ThermalConfig.Valid, RadiatorSystem.init, defaultConfig])
    (by norm_num [DEEP_SPACE_TEMP_K, RadiatorSystem.init, defaultConfig])
    (by norm_num)

/-! ### Orbital node endpoint layer (`orbital-node/src/main.py`) -/

/-- The JSON returned by the orbital node's `/telemetry` endpoint. -/
structure TelemetryReading where
  temp_c : ℚ
  temp_k : ℚ
  status : String
  cooling_capacity_watts : ℚ

/-- `get_telemetry` from `orbital-node/src/main.py`.  The status comparison
uses the literal `353.15`, not the engine's configured `max_temp_k`. -/
def get_telemetry (s : RadiatorSystem) : TelemetryReading :=
  { temp_c := current_temp_c s,
    temp_k := s.current_temp_k,
    status := if s.current_temp_k < 353.15 then "NOMINAL" else "CRITICAL_HEAT",
    cooling_capacity_watts := calculate_rejection_watts s }

/-- The `telemetry` sub-dict of a successful `/process_job` response. -/
structure JobTelemetry where
  execution_time : ℚ
  final_temp_c : ℚ
  thermal_status : String

/-- A successful `/process_job` response body. -/
structure JobResponse where
  result : String
  telemetry : JobTelemetry

/-- How `process_job` can fail: the caught admission-gate trip re-raised as
`HTTPException(503, ...)` carrying the trip, or the post-execution trip which
is not caught and escapes the handler. -/
inductive JobError where
  | thermalRejection (status_code : ℕ) (trip : ThermalTrip)
  | uncaughtTrip (trip : ThermalTrip)

/-- Whether a `/process_job` outcome is the uncaught post-execution trip. -/
def is_uncaught_trip (x : Except JobError JobResponse) : Bool :=
  match x with
  | Except.error (JobError.uncaughtTrip _) => true
  | _ => false

/-- The execution time reported in a successful `/process_job` response. -/
def execution_time_of (x : Except JobError JobResponse) : Option ℚ :=
  match x with
  | Except.ok r => some r.telemetry.execution_time
  | Except.error _ => none

/-- The duration adjustment in `process_job`:
`if duration < 0.1: duration = 0.5`. -/
def floored_duration (duration : ℚ) : ℚ :=
  if duration < 0.1 then 0.5 else duration

/-- `process_job` from `orbital-node/src/main.py`.  The job body is an
external collaborator, so its measured wall-clock duration and its textual
result enter as parameters; the idle admission tick (50 W, 1 s), the duration
adjustment, and the post-execution consequence tick (500 W) are the code's. -/
def process_job (s : RadiatorSystem) (measured_duration : ℚ) (result_text : String) :
    RadiatorSystem × Except JobError JobResponse :=
  let r1 := tick s 50.0 1.0
  match r1.2 with
  | Except.error e => (r1.1, Except.error (JobError.thermalRejection 503 e))
  | Except.ok _ =>
      let duration := floored_duration measured_duration
      let r2 := tick r1.1 500.0 duration
      match r2.2 with
      | Except.error e => (r2.1, Except.error (JobError.uncaughtTrip e))
      | Except.ok _ =>
          (r2.1, Except.ok { result := result_text,
                             telemetry := { execution_time := duration,
                                            final_temp_c := current_temp_c r2.1,
                                            thermal_status := "NOMINAL" } })

/-- A small-thermal-mass configuration (the shape exercised by the
repository's `test_overheating_trip`), here started at 300 K. -/
def smallMassState : RadiatorSystem :=
  { config := { mass_kg := 10.0, specific_heat_j_kg_k := 900.0,
                surface_area_m2 := 1.0, emissivity := 0.92,
                max_temp_k := 353.15, initial_temp_k := 300.0 },
    current_temp_k := 300.0 }

/-- A state whose configuration trips at 400 K but whose temperature, 370 K,
already exceeds the telemetry endpoint's hard-coded 353.15 K. -/
def mismatchState : RadiatorSystem :=
  { config := { mass_kg := 50.0, specific_heat_j_kg_k := 900.0,
                surface_area_m2 := 1.0, emissivity := 0.92,
                max_temp_k := 400.0, initial_temp_k := 293.15 },
    current_temp_k := 370.0 }

/-- **C5 counterexample.** At a concrete state the post-execution 500 W tick
trips, yet `process_job` does not return the already-computed result: the
uncaught trip escapes and the response carries no `JobResponse` at all. -/
theorem process_job_discards_result_on_trip_cex :
    succeeds (tick (tick smallMassState 50.0 1.0).1 500.0 (floored_duration 7000)).2 = false ∧
    is_uncaught_trip (process_job smallMassState 7000 (r"JOB_RESULT")).2 = true := by
  constructor
  · norm_num [succeeds, tick, calculate_rejection_watts, floored_duration,
      smallMassState, STEFAN_BOLTZMANN_SIGMA, DEEP_SPACE_TEMP_K]
  · norm_num [is_uncaught_trip, process_job, succeeds, tick, calculate_rejection_watts,
      floored_duration, smallMassState, STEFAN_BOLTZMANN_SIGMA, DEEP_SPACE_TEMP_K]

/-- **C5 (amended).** If the admission tick passes and the post-execution
consequence tick trips, `process_job` fails with the uncaught trip: the
result is not returned (no telemetry either), though the tick's state
mutation remains committed. -/
theorem process_job_trip_propagates (s : RadiatorSystem) (measured_duration : ℚ)
    (result_text : String)
    (h1 : succeeds (tick s 50.0 1.0).2 = true)
    (h2 : succeeds (tick (tick s 50.0 1.0).1 500.0 (floored_duration measured_duration)).2
            = false) :
    is_uncaught_trip (process_job s measured_duration result_text).2 = true ∧
    (process_job s measured_duration result_text).1 =
      (tick (tick s 50.0 1.0).1 500.0 (floored_duration measured_duration)).1 := by
  simp only [process_job]
  split
  case h_1 e heq =>
    rw [heq] at h1
    exact absurd h1 (by simp [succeeds])
  case h_2 o heq =>
    split
    case h_1 e2 heq2 =>
      exact ⟨rfl, rfl⟩
    case h_2 o2 heq2 =>
      rw [heq2] at h2
      exact absurd h2 (by simp [succeeds])

/-- **C5 witness**: the amended theorem applied at the concrete tripping
scenario. -/
theorem process_job_trip_propagates_witness :
    is_uncaught_trip (process_job smallMassState 7000 (r"JOB_WITNESS")).2 = true :=
  (process_job_trip_propagates smallMassState 7000 (r"JOB_WITNESS")
    (by norm_num [succeeds, tick, calculate_rejection_watts, smallMassState,
      STEFAN_BOLTZMANN_SIGMA, DEEP_SPACE_TEMP_K])
    (by norm_num [succeeds, tick, calculate_rejection_watts, floored_duration,
      smallMassState, STEFAN_BOLTZMANN_SIGMA, DEEP_SPACE_TEMP_K])).1

/-- **C6.** If the idle admission tick (50 W over 1 s) trips, `process_job`
rejects the job with status code 503 carrying the trip detail (the committed
temperature in Celsius and the configured limit in Celsius), the state is
left exactly as the idle tick committed it, and nothing past the gate runs
(in particular no 500 W execution tick and no result). -/
theorem process_job_admission_gate (s : RadiatorSystem) (measured_duration : ℚ)
    (result_text : String)
    (h : succeeds (tick s 50.0 1.0).2 = false) :
    process_job s measured_duration result_text =
      ((tick s 50.0 1.0).1,
       Except.error (JobError.thermalRejection 503
         { measured_temp_c := current_temp_c (tick s 50.0 1.0).1,
           limit_c := s.config.max_temp_k - 273.15 })) := by
  simp only [process_job]
  split
  case h_1 e heq =>
    rcases tick_cases s 50.0 1.0 with hok | herr
    · rw [hok] at heq
      exact absurd heq (by simp)
    · rw [herr] at heq
      obtain rfl := Except.error.inj heq
      rfl
  case h_2 o heq =>
    rw [heq] at h
    exact absurd h (by simp [succeeds])

/-- **C6 witness**: at 400 K under the default configuration the admission
tick trips and the 503 rejection is produced. -/
theorem process_job_admission_gate_witness :
    process_job { config := defaultConfig, current_temp_k := 400 } 1 (r"W6") =
      ((tick { config := defaultConfig, current_temp_k := 400 } 50.0 1.0).1,
       Except.error (JobError.thermalRejection 503
         { measured_temp_c :=
             current_temp_c (tick { config := defaultConfig, current_temp_k := 400 } 50.0 1.0).1,
           limit_c :=
             ({ config := defaultConfig, current_temp_k := 400 } :
               RadiatorSystem).config.max_temp_k - 273.15 })) :=
  process_job_admission_gate { config := defaultConfig, current_temp_k := 400 } 1 (r"W6")
    (by norm_num [succeeds, tick, calculate_rejection_watts, defaultConfig,
      STEFAN_BOLTZMANN_SIGMA, DEEP_SPACE_TEMP_K])

/-- **C7 counterexample.** A measured duration of 0.3 s is *not* floored to
0.5 s: the successful response reports 0.3 s, which is below 0.5 s. -/
theorem process_job_duration_floor_cex :
    execution_time_of (process_job (RadiatorSystem.init defaultConfig) (3/10) (r"CEX")).2 =
      some (3/10) ∧
    ¬ ((1/2 : ℚ) ≤ 3/10) := by
  constructor
  · norm_num [execution_time_of, process_job, tick, calculate_rejection_watts,
      floored_duration, RadiatorSystem.init, defaultConfig,
      STEFAN_BOLTZMANN_SIGMA, DEEP_SPACE_TEMP_K]
  · norm_num

/-- **C7 (amended).** The measured duration is replaced by 0.5 s only when it
is below 0.1 s and used unchanged otherwise, so the duration used for the
post-execution tick and reported as `execution_time` is always at least
0.1 s — not always at least 0.5 s. -/
theorem process_job_duration_floor (s : RadiatorSystem) (measured_duration : ℚ)
    (result_text : String)
    (h : succeeds (process_job s measured_duration result_text).2 = true) :
    execution_time_of (process_job s measured_duration result_text).2 =
      some (floored_duration measured_duration) ∧
    (measured_duration < 0.1 → floored_duration measured_duration = 0.5) ∧
    (0.1 ≤ measured_duration → floored_duration measured_duration = measured_duration) ∧
    0.1 ≤ floored_duration measured_duration := by
  refine ⟨?_, ?_, ?_, ?_⟩
  · simp only [process_job] at h ⊢
    split at h
    · exact absurd h (by simp [succeeds])
    · split at h
      · exact absurd h (by simp [succeeds])
      · rfl
  · intro hlt
    simp only [floored_duration, if_pos hlt]
  · intro hge
    simp only [floored_duration, if_neg (not_lt.mpr hge)]
  · simp only [floored_duration]
    split
    · norm_num
    case isFalse hge => linarith [not_lt.mp hge]

/-- **C7 witness**: the amended theorem applied at measured duration 0.3 s on
a fresh default radiator. -/
theorem process_job_duration_floor_witness :
    execution_time_of (process_job (RadiatorSystem.init defaultConfig) (3/10) (r"W7")).2 =
      some (floored_duration (3/10)) :=
  (process_job_duration_floor (RadiatorSystem.init defaultConfig) (3/10) (r"W7")
    (by norm_num [succeeds, process_job, tick, calculate_rejection_watts,
      floored_duration, RadiatorSystem.init, defaultConfig,
      STEFAN_BOLTZMANN_SIGMA, DEEP_SPACE_TEMP_K])).1

/-- **C10.** The telemetry endpoint reports `"NOMINAL"` exactly when
`current_temp_k` is below the hard-coded 353.15 K (otherwise
`"CRITICAL_HEAT"`), independently of the configured `max_temp_k`; at a state
with `max_temp_k = 400` and temperature 370 K the status is already
`"CRITICAL_HEAT"` even though an idle tick does not trip. -/
theorem telemetry_status_hardcoded_threshold :
    (∀ s : RadiatorSystem,
      ((get_telemetry s).status = r"NOMINAL" ↔ s.current_temp_k < 353.15)) ∧
    (get_telemetry mismatchState).status = r"CRITICAL_HEAT" ∧
    mismatchState.config.max_temp_k = 400 ∧
    succeeds (tick mismatchState 50.0 1.0).2 = true := by
  refine ⟨?_, ?_, ?_, ?_⟩
  · intro s
    simp only [get_telemetry]
    split
    case isTrue h => exact iff_of_true rfl h
    case isFalse h => exact iff_of_false (by decide) h
  · simp only [get_telemetry]
    rw [if_neg (by norm_num [mismatchState])]
  · norm_num [mismatchState]
  · norm_num [succeeds, tick, calculate_rejection_watts, mismatchState,
      STEFAN_BOLTZMANN_SIGMA, DEEP_SPACE_TEMP_K]

/-! ### Uplink service (`uplink-service/src/main.py`) -/

/-- `PACKET_LOSS_RATE = 0.1` from `uplink-service/src/main.py`. -/
def PACKET_LOSS_RATE : ℚ := 0.1

/-- A raised `HTTPException`: status code plus detail string. -/
structure HTTPErrorResponse where
  status_code : ℕ
  detail : String

/-- Outcome of the `httpx` POST to the orbital node — the external
collaborator of `transmit_packet`.  `client.post` either returns a `Response`
(whatever its status code: it raises `HTTPStatusError` only from an explicit
`raise_for_status()` call, which this code never makes) or raises a
connection-level `RequestError`. -/
inductive DownstreamOutcome where
  | response (status_code : ℕ) (body : String)
  | requestError (msg : String)

/-- The `uplink_telemetry` sub-dict of a delivered transmission. -/
structure UplinkTelemetry where
  latency_added_ms : ℚ
  status : String

/-- A successful `/transmit` response body. -/
structure TransmitResponse where
  uplink_telemetry : UplinkTelemetry
  satellite_response : String

/-- `transmit_packet` from `uplink-service/src/main.py`.  The two random draws
(the `random.random()` loss roll and the `random.randint(500, 2000)` latency
in milliseconds) and the downstream call's outcome enter as parameters.  A
returned `Response` — of any status code — reaches the
`return {uplink_telemetry ..., satellite_response: response.json()}` path:
the `except httpx.HTTPStatusError` clause is unreachable because nothing in
the `try` block calls `raise_for_status()`, so it has no arm here. -/
def transmit_packet (loss_roll : ℚ) (latency_ms : ℕ) (downstream : DownstreamOutcome) :
    Except HTTPErrorResponse TransmitResponse :=
  if loss_roll < PACKET_LOSS_RATE then
    Except.error { status_code := 504, detail := "UPLINK ERROR: Loss of Signal (LOS)" }
  else
    let delay : ℚ := (latency_ms : ℚ) / 1000.0
    match downstream with
    | DownstreamOutcome.response _ body =>
        Except.ok { uplink_telemetry := { latency_added_ms := delay * 1000,
                                          status := "DELIVERED" },
                    satellite_response := body }
    | DownstreamOutcome.requestError msg =>
        Except.error { status_code := 502, detail := "ORBITAL UNREACHABLE: " ++ msg }

/-- **C8 counterexample.** A delivered attempt (loss roll 0.5) whose
downstream outcome is the node's application-level 503 rejection does *not*
fail toward the caller: `transmit_packet` succeeds with a `"DELIVERED"`
200-class body that merely wraps the rejection's JSON, and the 503 status
code appears nowhere in the result. -/
theorem transmit_no_passthrough_cex :
    transmit_packet (1/2) 500 (DownstreamOutcome.response 503 (r"THERMAL_DETAIL")) =
      Except.ok { uplink_telemetry := { latency_added_ms := 500, status := r"DELIVERED" },
                  satellite_response := r"THERMAL_DETAIL" } ∧
    succeeds (transmit_packet (1/2) 500 (DownstreamOutcome.response 503 (r"THERMAL_DETAIL"))) =
      true := by
  have hroll : ¬ ((1 : ℚ)/2 < PACKET_LOSS_RATE) := by norm_num [PACKET_LOSS_RATE]
  constructor
  · simp only [transmit_packet, if_neg hroll, Except.ok.injEq,
      TransmitResponse.mk.injEq, UplinkTelemetry.mk.injEq]
    norm_num
  · simp only [succeeds, transmit_packet, if_neg hroll]

/-- **C8 (amended).** On a delivered attempt, a downstream `Response` of any
status code — including an application-level 503 rejection — is returned as a
success: `"DELIVERED"` uplink telemetry with the response body wrapped
verbatim in `satellite_response` and the downstream status code dropped (no
passthrough; the `HTTPStatusError` handler is dead code).  Only a
connection-level `RequestError` is translated into a failure, the distinct
502 node-unreachable error. -/
theorem transmit_wraps_downstream_response (loss_roll : ℚ) (latency_ms : ℕ)
    (hdelivered : ¬ (loss_roll < PACKET_LOSS_RATE)) :
    (∀ sc body,
      transmit_packet loss_roll latency_ms (DownstreamOutcome.response sc body) =
        Except.ok { uplink_telemetry := { latency_added_ms := (latency_ms : ℚ) / 1000.0 * 1000,
                                          status := r"DELIVERED" },
                    satellite_response := body }) ∧
    (∀ msg,
      transmit_packet loss_roll latency_ms (DownstreamOutcome.requestError msg) =
        Except.error { status_code := 502, detail := r"ORBITAL UNREACHABLE: " ++ msg }) := by
  refine ⟨fun sc body => ?_, fun msg => ?_⟩ <;>
    simp only [transmit_packet, if_neg hdelivered]

/-- **C8 witness**: the amended theorem applied at a delivered attempt
carrying the node's 503 rejection body. -/
theorem transmit_wraps_downstream_response_witness :
    transmit_packet (1/2) 1000 (DownstreamOutcome.response 503 (r"THERMAL_BODY")) =
      Except.ok { uplink_telemetry := { latency_added_ms := ((1000 : ℕ) : ℚ) / 1000.0 * 1000,
                                        status := r"DELIVERED" },
                  satellite_response := r"THERMAL_BODY" } :=
  (transmit_wraps_downstream_response (1/2) 1000
    (by norm_num [PACKET_LOSS_RATE])).1 503 (r"THERMAL_BODY")

/-! ### Ground-station shuttle packaging (`ground-station/src/shuttle.py`) -/

/-- `ShuttleManifest` from `shuttle.py`. -/
structure ShuttleManifest where
  payload_id : String
  size_kb : ℚ
  launch_window_utc : String
  status : String

/-- `len(data.encode('utf-8'))`: the UTF-8 byte length of a string. -/
def utf8ByteLen (s : String) : ℕ :=
  s.data.foldl (fun n c => n + c.utf8Size) 0

/-- `DataShuttleLogistics.package_payload` from `shuttle.py`.  The two clock
reads are parameters: `now_epoch_s` is `int(time.time())` (whole seconds) and
`launch_window` is the `datetime.utcnow().isoformat()` string. -/
def package_payload (data : String) (now_epoch_s : ℤ) (launch_window : String) :
    ShuttleManifest :=
  { payload_id := "SHUTTLE-" ++ toString now_epoch_s,
    size_kb := (utf8ByteLen data : ℚ) / 1024.0,
    launch_window_utc := launch_window,
    status := "PACKAGED_FOR_LAUNCH" }

/-- A 100-character ASCII payload, `"x" * 100` (the spec's end-to-end example
input). -/
def hundredChars : String :=
  String.mk (List.replicate 100 'x')

/-- **C9 counterexample.** Two distinct packaging events (different payloads)
whose clock reads fall in the same whole second receive the *same*
`payload_id`: uniqueness per packaging event fails. -/
theorem package_payload_id_collision_cex :
    (package_payload (r"alpha") 1700000000 (r"w1")).payload_id =
      (package_payload (r"beta") 1700000000 (r"w2")).payload_id ∧
    (r"alpha") ≠ (r"beta") := by
  exact ⟨rfl, by decide⟩

/-- **C9 (amended).** `package_payload` always returns status
`"PACKAGED_FOR_LAUNCH"` and `size_kb` equal to the UTF-8 byte length divided
by 1024 (25/256 ≈ 0.098 for the 100-character ASCII payload), but
`payload_id` is `"SHUTTLE-"` followed by the whole-second timestamp alone, so
it is unique only across packaging events with distinct whole-second clock
reads, not per packaging event. -/
theorem package_payload_spec (data : String) (now_epoch_s : ℤ) (launch_window : String) :
    (package_payload data now_epoch_s launch_window).status = r"PACKAGED_FOR_LAUNCH" ∧
    (package_payload data now_epoch_s launch_window).size_kb =
      (utf8ByteLen data : ℚ) / 1024 ∧
    (package_payload data now_epoch_s launch_window).payload_id =
      r"SHUTTLE-" ++ toString now_epoch_s ∧
    (package_payload hundredChars now_epoch_s launch_window).size_kb = 25 / 256 ∧
    |(25 / 256 : ℚ) - 0.098| ≤ 1 / 2000 := by
  refine ⟨rfl, by norm_num [package_payload], rfl, ?_, by rw [abs_le]; norm_num⟩
  have hlen : utf8ByteLen hundredChars = 100 := by decide
  simp only [package_payload, hlen]
  norm_num

end OrbitalSim
